import Mathlib

/-!
Shallow embedding of the isomorphic-translation engine
(`traductor_isomorfico.py`): categories, statuses, slots, the glossary
store, tokenization, locution fusion, the synchronization core
(`ejecutar_core_p3`), the repair operations and the renderer, together
with theorems settling the specification claims C1 - C10.
-/

set_option autoImplicit false

namespace Traductor

/-- Token / glossary categories (`class Categoria`). -/
inductive Categoria where
  | NUCLEO
  | PARTICULA
  | LOCUCION
  | PUNTUACION
deriving DecidableEq, Repr

/-- Slot / glossary statuses (`class Status`). -/
inductive Status where
  | PENDIENTE
  | ASIGNADO
  | BLOQUEADO
  | NULO
deriving DecidableEq, Repr

/-- Slot origins (`class Origen`). -/
inductive Origen where
  | FUENTE
  | INYECCION
  | POLIVALENCIA
deriving DecidableEq, Repr

/-- Glossary margins (`class Margen`). -/
inductive Margen where
  | IDIOM
  | COLLISION
  | NO_ROOT
  | TRANSLIT
  | ALT_1_1
  | DIRECTO
deriving DecidableEq, Repr

/-- One aligned matrix position (`@dataclass Slot`). -/
structure Slot where
  id : String
  pos_index : Nat
  token_src : String
  token_tgt : String := ""
  categoria : Categoria := Categoria.NUCLEO
  status : Status := Status.PENDIENTE
  origen : Origen := Origen.FUENTE
  inyecciones_previas : List String := []
  inyecciones_posteriores : List String := []
deriving DecidableEq, Repr

/-- One glossary entry (`@dataclass EntradaGlosario`). -/
structure EntradaGlosario where
  token_src : String
  token_tgt : String
  categoria : Categoria
  status : Status
  margen : Margen
  bloqueado : Bool := false
deriving DecidableEq, Repr

/-- `Slot.render`: per-slot display fragment (nullified slots show the
braced source text, absorbed blocked slots render as nothing, otherwise
the target text or a placeholder, decorated in draft mode while pending,
wrapped by the pre/post injections). -/
def Slot.render (slot : Slot) (mode : String) : String :=
  if slot.status = Status.NULO then
    "\x7b" ++ slot.token_src ++ "\x7d"
  else if slot.status = Status.BLOQUEADO ∧ slot.token_tgt = "" then
    ""
  else
    let nucleo0 := if slot.token_tgt ≠ "" then slot.token_tgt
      else "[" ++ slot.token_src ++ "?]"
    let nucleo := if mode = "BORRADOR" ∧ slot.status = Status.PENDIENTE then
      "___" ++ nucleo0 ++ "___" else nucleo0
    let pre := String.join (slot.inyecciones_previas.map (fun x => "[" ++ x ++ "] "))
    let post := String.join (slot.inyecciones_posteriores.map (fun x => " [" ++ x ++ "]"))
    pre ++ nucleo ++ post

/-- Glossary lookup (`self.glosario.get(key)` / `key in self.glosario`):
first entry with the given key in the insertion-ordered store. -/
def glossaryLookup : List (String × EntradaGlosario) → String → Option EntradaGlosario
  | [], _ => none
  | (k1, v1) :: rest, k => if k1 = k then some v1 else glossaryLookup rest k

/-- Glossary assignment (`self.glosario[key] = entry`): replace the entry
in place when the key exists, append it otherwise. -/
def glossarySet : List (String × EntradaGlosario) → String → EntradaGlosario →
    List (String × EntradaGlosario)
  | [], k, v => [(k, v)]
  | (k1, v1) :: rest, k, v =>
    if k1 = k then (k, v) :: rest else (k1, v1) :: glossarySet rest k v

/-- Full engine state (`class SistemaTraduccion`): source matrix, target
matrix, glossary store and output mode. -/
structure Sistema where
  mtx_s : List Slot := []
  mtx_t : List Slot := []
  glosario : List (String × EntradaGlosario) := []
  modo_salida : String := "BORRADOR"
deriving DecidableEq, Repr

/-- The freshly constructed system (`SistemaTraduccion.__init__`). -/
def sistemaInicial : Sistema := {}

/-- Python word character for this engine's ASCII inputs (`\w`). -/
def isWordChar (c : Char) : Bool := c.isAlpha || c.isDigit || c = '_'

/-- Python `str.lower()` on the engine's inputs, written as a structural
per-character map so that concrete states evaluate inside the kernel. -/
def toLowerStr (s : String) : String := String.mk (s.toList.map Char.toLower)

/-- Python `str.strip()`: drop whitespace from both ends, written
structurally so that concrete renders evaluate inside the kernel. -/
def trimStr (s : String) : String :=
  String.mk (((s.toList.dropWhile Char.isWhitespace).reverse.dropWhile
    Char.isWhitespace).reverse)

/-- Python whitespace (`\s`). -/
def isSpaceChar (c : Char) : Bool :=
  c = ' ' || c = '\t' || c = '\n' || c = '\r' || c = '\x0b' || c = '\x0c'

/-- Fueled scanner behind `re.findall(r"(\w+|[^\w\s])", texto)`: a maximal
word-character run becomes one token, any other non-space character is a
single-character token, whitespace separates.  The fuel is an upper bound
on the number of characters left and every call consumes at least one
character, so fuel `cs.length` never runs out. -/
def tokensRawAux : Nat → List Char → List String
  | 0, _ => []
  | _ + 1, [] => []
  | fuel + 1, c :: rest =>
    if isWordChar c then
      String.mk (c :: rest.takeWhile isWordChar) ::
        tokensRawAux fuel (rest.dropWhile isWordChar)
    else if isSpaceChar c then
      tokensRawAux fuel rest
    else
      String.singleton c :: tokensRawAux fuel rest

/-- `re.findall(r"(\w+|[^\w\s])", texto)` on a character list. -/
def tokensRaw (cs : List Char) : List String := tokensRawAux cs.length cs

/-- `SistemaTraduccion._detectar_categoria`: leading non-word non-space
character means punctuation, else the closed particle set, else core. -/
def detectar_categoria (token : String) : Categoria :=
  match token.toList with
  | [] =>
    if toLowerStr token ∈ ["el", "la", "de", "en", "y", "que", "a"] then
      Categoria.PARTICULA
    else Categoria.NUCLEO
  | c :: _ =>
    if ¬ isWordChar c ∧ ¬ isSpaceChar c then Categoria.PUNTUACION
    else if toLowerStr token ∈ ["el", "la", "de", "en", "y", "que", "a"] then
      Categoria.PARTICULA
    else Categoria.NUCLEO

/-- `SistemaTraduccion.registrar_token`: insert a pending empty-translation
entry when the key is absent, otherwise leave the store unchanged. -/
def registrar_token (sys : Sistema) (token_src : String) (categoria : Categoria)
    (margen : Margen) : Sistema :=
  if (glossaryLookup sys.glosario token_src).isSome then sys
  else { sys with glosario := sys.glosario ++
    [(token_src, { token_src := token_src, token_tgt := "", categoria := categoria,
                   status := Status.PENDIENTE, margen := margen })] }

/-- One iteration of the tokenization loop in
`SistemaTraduccion.procesar_texto_input`: classify the token, register its
key, and append the aligned source and target slots. -/
def procesarPaso (sys : Sistema) (i : Nat) (token : String) : Sistema :=
  let cat := detectar_categoria token
  let token_key := if cat ≠ Categoria.PUNTUACION then toLowerStr token else token
  let sys1 := registrar_token sys token_key cat Margen.DIRECTO
  { sys1 with
    mtx_s := sys1.mtx_s ++ [{ id := "S_" ++ toString i, pos_index := i,
                              token_src := token, categoria := cat }],
    mtx_t := sys1.mtx_t ++ [{ id := "T_" ++ toString i, pos_index := i,
                              token_src := token }] }

/-- `SistemaTraduccion.procesar_texto_input`: strip carriage returns,
tokenize, reset both matrices and process every token in order. -/
def procesar_texto_input (sys : Sistema) (texto_crudo : String) : Sistema :=
  let texto_limpio := texto_crudo.toList.filter (fun c => c ≠ '\r')
  let tokens_raw := tokensRaw texto_limpio
  tokens_raw.enum.foldl (fun st p => procesarPaso st p.1 p.2)
    { sys with mtx_s := [], mtx_t := [] }

/-- Apply a function to the element at one position, leaving every other
element alone (the in-place slot mutations of the Python code). -/
def updateAt {α : Type} (i : Nat) (f : α → α) : List α → List α
  | [] => []
  | a :: as =>
    match i with
    | 0 => f a :: as
    | j + 1 => a :: updateAt j f as

/-- Map a function with its position over a list, starting the position
count at `n` (the `for i in range(start, end + 1)` loop of fusion). -/
def mapIdxFrom {α : Type} (f : Nat → α → α) (n : Nat) : List α → List α
  | [] => []
  | a :: as => f n a :: mapIdxFrom f (n + 1) as

/-- The per-slot blocking update of `SistemaTraduccion.crear_locucion`:
inside the fused range every slot becomes blocked, the head slot carries
the translation with category locution, the rest are absorbed. -/
def aplicarBloqueo (s e : Nat) (trad : String) (i : Nat) (slot : Slot) : Slot :=
  if s ≤ i ∧ i ≤ e then
    if i = s then
      { slot with status := Status.BLOQUEADO, token_tgt := trad,
                  categoria := Categoria.LOCUCION }
    else
      { slot with status := Status.BLOQUEADO, token_tgt := "" }
  else slot

/-- `SistemaTraduccion.crear_locucion`: validate the range, register the
composite locution entry as assigned, and block the covered target slots.
Returns the next state with the `(ok, message)` pair of the source. -/
def crear_locucion (sys : Sistema) (start_index end_index : Nat)
    (traduccion_locucion : String) : Sistema × Bool × String :=
  if ¬ (start_index < sys.mtx_s.length) ∨ ¬ (end_index < sys.mtx_s.length) then
    (sys, false, "Índices inválidos.")
  else if start_index > end_index then
    (sys, false, "Inicio > Fin.")
  else
    let tokens_src := ((sys.mtx_s.drop start_index).take
      (end_index + 1 - start_index)).map Slot.token_src
    let key_locucion := toLowerStr (String.intercalate " " tokens_src)
    let entrada : EntradaGlosario :=
      { token_src := key_locucion, token_tgt := traduccion_locucion,
        categoria := Categoria.LOCUCION, status := Status.ASIGNADO,
        margen := Margen.IDIOM }
    ({ sys with
        glosario := glossarySet sys.glosario key_locucion entrada,
        mtx_t := mapIdxFrom (aplicarBloqueo start_index end_index traduccion_locucion)
          0 sys.mtx_t },
      true, "Locución '" ++ key_locucion ++ "' creada.")

/-- The glossary lookup of the synchronization core, with the exact-text
fallback for punctuation source slots. -/
def lookupEntrada (g : List (String × EntradaGlosario)) (slot_s : Slot) :
    Option EntradaGlosario :=
  let entrada0 := glossaryLookup g (toLowerStr slot_s.token_src)
  if entrada0.isNone ∧ slot_s.categoria = Categoria.PUNTUACION then
    glossaryLookup g slot_s.token_src
  else entrada0

/-- The per-index body of `SistemaTraduccion.ejecutar_core_p3`: blocked
locution heads and absorbed slots are skipped; otherwise a resolved
non-empty glossary entry is copied onto the slot, and a missing or empty
entry resets the slot to pending unless it is nullified. -/
def syncSlot (g : List (String × EntradaGlosario)) (slot_s slot_t : Slot) : Slot :=
  if slot_t.status = Status.BLOQUEADO ∧ slot_t.categoria = Categoria.LOCUCION then
    slot_t
  else if slot_t.status = Status.BLOQUEADO ∧ slot_t.token_tgt = "" then
    slot_t
  else
    match lookupEntrada g slot_s with
    | some entrada =>
      if entrada.token_tgt ≠ "" then
        { slot_t with token_tgt := entrada.token_tgt, status := Status.ASIGNADO,
                      categoria := entrada.categoria }
      else if slot_t.status ≠ Status.NULO then
        { slot_t with token_tgt := "", status := Status.PENDIENTE }
      else slot_t
    | none =>
      if slot_t.status ≠ Status.NULO then
        { slot_t with token_tgt := "", status := Status.PENDIENTE }
      else slot_t

/-- `SistemaTraduccion.ejecutar_core_p3`: synchronize every index covered
by the source matrix; target slots beyond the source matrix are left as
they are. -/
def ejecutar_core_p3 (sys : Sistema) : Sistema :=
  { sys with mtx_t :=
      List.zipWith (syncSlot sys.glosario) sys.mtx_s sys.mtx_t ++
        sys.mtx_t.drop sys.mtx_s.length }

/-- `SistemaTraduccion.inyectar_token`: bounds-checked append to one
slot's pre or post injection list, with the `(ok, message)` result. -/
def inyectar_token (sys : Sistema) (index : Nat) (texto posicion : String) :
    Sistema × Bool × String :=
  let agregar := fun (slot : Slot) =>
    if posicion = "PRE" then
      { slot with inyecciones_previas := slot.inyecciones_previas ++ [texto] }
    else
      { slot with inyecciones_posteriores := slot.inyecciones_posteriores ++ [texto] }
  if index < sys.mtx_t.length then
    ({ sys with mtx_t := updateAt index agregar sys.mtx_t }, true, "Inyección exitosa.")
  else (sys, false, "Índice error.")

/-- `SistemaTraduccion.alternar_nulidad`: bounds-checked elision toggle;
a nullified slot returns to assigned when it holds text and to pending
otherwise, any other slot becomes nullified. -/
def alternar_nulidad (sys : Sistema) (index : Nat) : Sistema × Bool × String :=
  let restaurar := fun (s : Slot) =>
    { s with status := if s.token_tgt ≠ "" then Status.ASIGNADO else Status.PENDIENTE }
  let anular := fun (s : Slot) => { s with status := Status.NULO }
  match sys.mtx_t.get? index with
  | some slot =>
    if slot.status = Status.NULO then
      ({ sys with mtx_t := updateAt index restaurar sys.mtx_t }, true, "Restaurado.")
    else
      ({ sys with mtx_t := updateAt index anular sys.mtx_t }, true, "Anulado.")
  | none => (sys, false, "Error.")

/-- `SistemaTraduccion.limpiar_inyecciones`: bounds-checked reset of both
injection lists; an out-of-range index leaves the state untouched and the
function returns nothing either way. -/
def limpiar_inyecciones (sys : Sistema) (index : Nat) : Sistema :=
  let vaciar := fun (s : Slot) =>
    { s with inyecciones_previas := ([] : List String),
             inyecciones_posteriores := ([] : List String) }
  if index < sys.mtx_t.length then
    { sys with mtx_t := updateAt index vaciar sys.mtx_t }
  else sys

/-- `SistemaTraduccion.renderizar_texto_final`: render each target slot,
skip empty fragments, drop the pending separator before punctuation, and
append a separator after every fragment that is not an opening mark;
finally join and strip. -/
def renderizar_texto_final (sys : Sistema) : String :=
  let buffer := sys.mtx_t.foldl (fun buffer slot =>
    let texto := slot.render sys.modo_salida
    if texto = "" then buffer
    else
      let is_punct := slot.categoria = Categoria.PUNTUACION ∨
        trimStr texto ∈ [",", ".", ";", ":"]
      let buffer1 := if is_punct ∧ buffer ≠ [] ∧ buffer.getLast? = some " " then
        buffer.dropLast else buffer
      let buffer2 := buffer1 ++ [texto]
      if texto ∉ ["(", "¿", "¡"] then buffer2 ++ [" "] else buffer2) []
  trimStr (String.join buffer)

/-- The glossary-editing save path of the surface
(`sistema.glosario[key].token_tgt = new_tgt; ... status = Status.ASIGNADO`):
resolve an existing key to a translation, marking it assigned. -/
def resolver_entrada (sys : Sistema) (key traduccion : String) : Sistema :=
  match glossaryLookup sys.glosario key with
  | some e =>
    let e1 := { e with token_tgt := traduccion, status := Status.ASIGNADO }
    { sys with glosario := glossarySet sys.glosario key e1 }
  | none => sys

/-! ### Helper lemmas -/

theorem length_updateAt {α : Type} (i : Nat) (f : α → α) (l : List α) :
    (updateAt i f l).length = l.length := by
  induction l generalizing i with
  | nil => cases i <;> rfl
  | cons a as ih =>
    cases i with
    | zero => rfl
    | succ j => simp [updateAt, ih]

theorem get?_updateAt_self {α : Type} (i : Nat) (f : α → α) (l : List α) :
    (updateAt i f l).get? i = (l.get? i).map f := by
  induction l generalizing i with
  | nil => cases i <;> rfl
  | cons a as ih =>
    cases i with
    | zero => rfl
    | succ j => simpa [updateAt] using ih j

theorem get?_updateAt_ne {α : Type} (i j : Nat) (f : α → α) (l : List α)
    (h : j ≠ i) : (updateAt i f l).get? j = l.get? j := by
  induction l generalizing i j with
  | nil => cases i <;> rfl
  | cons a as ih =>
    cases i with
    | zero =>
      cases j with
      | zero => exact absurd rfl h
      | succ j2 => rfl
    | succ i2 =>
      cases j with
      | zero => rfl
      | succ j2 => simpa [updateAt] using ih i2 j2 (fun hc => h (by rw [hc]))

theorem map_updateAt {α β : Type} (τ : α → β) (i : Nat) (f : α → α) (l : List α)
    (hf : ∀ a, τ (f a) = τ a) : (updateAt i f l).map τ = l.map τ := by
  induction l generalizing i with
  | nil => cases i <;> rfl
  | cons a as ih =>
    cases i with
    | zero => simp [updateAt, hf]
    | succ j => simp [updateAt, ih]

theorem length_mapIdxFrom {α : Type} (f : Nat → α → α) (n : Nat) (l : List α) :
    (mapIdxFrom f n l).length = l.length := by
  induction l generalizing n with
  | nil => rfl
  | cons a as ih => simp [mapIdxFrom, ih]

theorem get?_mapIdxFrom {α : Type} (f : Nat → α → α) (n i : Nat) (l : List α) :
    (mapIdxFrom f n l).get? i = (l.get? i).map (f (n + i)) := by
  induction l generalizing n i with
  | nil => rfl
  | cons a as ih =>
    cases i with
    | zero => rfl
    | succ j =>
      have h2 : n + (j + 1) = (n + 1) + j := by omega
      simpa [mapIdxFrom, h2] using ih (n + 1) j

theorem map_mapIdxFrom {α β : Type} (τ : α → β) (f : Nat → α → α) (n : Nat)
    (l : List α) (hf : ∀ i a, τ (f i a) = τ a) :
    (mapIdxFrom f n l).map τ = l.map τ := by
  induction l generalizing n with
  | nil => rfl
  | cons a as ih => simp [mapIdxFrom, hf, ih]

theorem get?_zipWith {α β γ : Type} (f : α → β → γ) :
    ∀ (s : List α) (t : List β) (i : Nat),
      (List.zipWith f s t).get? i =
        match s.get? i, t.get? i with
        | some a, some b => some (f a b)
        | _, _ => none
  | [], _, _ => by cases i₀ : ([] : List α).get? 0 <;> simp
  | _ :: _, [], _ => by simp
  | a :: as, b :: bs, 0 => rfl
  | a :: as, b :: bs, i + 1 => by simpa using get?_zipWith f as bs i

theorem glossaryLookup_append {g g2 : List (String × EntradaGlosario)} {k : String} :
    glossaryLookup (g ++ g2) k =
      match glossaryLookup g k with
      | some e => some e
      | none => glossaryLookup g2 k := by
  induction g with
  | nil => simp [glossaryLookup]
  | cons p rest ih =>
    by_cases h : p.1 = k
    · simp [glossaryLookup, h]
    · simpa [glossaryLookup, h] using ih

theorem glossaryLookup_glossarySet_self (g : List (String × EntradaGlosario))
    (k : String) (v : EntradaGlosario) :
    glossaryLookup (glossarySet g k v) k = some v := by
  induction g with
  | nil => simp [glossarySet, glossaryLookup]
  | cons p rest ih =>
    by_cases h : p.1 = k
    · simp [glossarySet, glossaryLookup, h]
    · simp [glossarySet, glossaryLookup, h, ih]

theorem glossaryLookup_registrar (sys : Sistema) (k k2 : String) (c : Categoria)
    (m : Margen) (e : EntradaGlosario)
    (h : glossaryLookup sys.glosario k = some e) :
    glossaryLookup (registrar_token sys k2 c m).glosario k = some e := by
  unfold registrar_token
  by_cases h2 : (glossaryLookup sys.glosario k2).isSome
  · simpa [h2] using h
  · simp only [h2, if_false, Bool.false_eq_true]
    rw [glossaryLookup_append, h]

theorem token_src_syncSlot (g : List (String × EntradaGlosario)) (a b : Slot) :
    (syncSlot g a b).token_src = b.token_src := by
  unfold syncSlot
  by_cases h1 : b.status = Status.BLOQUEADO ∧ b.categoria = Categoria.LOCUCION
  · simp [h1]
  · by_cases h2 : b.status = Status.BLOQUEADO ∧ b.token_tgt = ""
    · simp [h1, h2]
    · cases hE : lookupEntrada g a with
      | none => by_cases h3 : b.status ≠ Status.NULO <;> simp [h1, h2, hE, h3]
      | some entrada =>
        by_cases h4 : entrada.token_tgt ≠ ""
        · simp [h1, h2, hE, h4]
        · by_cases h3 : b.status ≠ Status.NULO <;> simp [h1, h2, hE, h4, h3]

theorem syncSlot_idem (g : List (String × EntradaGlosario)) (a b : Slot) :
    syncSlot g a (syncSlot g a b) = syncSlot g a b := by
  unfold syncSlot
  by_cases h1 : b.status = Status.BLOQUEADO ∧ b.categoria = Categoria.LOCUCION
  · simp [h1]
  · by_cases h2 : b.status = Status.BLOQUEADO ∧ b.token_tgt = ""
    · simp [h1, h2]
    · cases hE : lookupEntrada g a with
      | none =>
        by_cases h3 : b.status ≠ Status.NULO
        · simp [h1, h2, hE, h3]
        · simp only [not_not] at h3
          simp [h1, h2, hE, h3]
      | some entrada =>
        by_cases h4 : entrada.token_tgt ≠ ""
        · simp [h1, h2, hE, h4]
        · by_cases h3 : b.status ≠ Status.NULO
          · simp [h1, h2, hE, h4, h3]
          · simp only [not_not] at h3
            simp [h1, h2, hE, h4, h3]

theorem zipWith_sync_idem (g : List (String × EntradaGlosario)) :
    ∀ (s t : List Slot),
      List.zipWith (syncSlot g) s (List.zipWith (syncSlot g) s t) =
        List.zipWith (syncSlot g) s t
  | [], _ => rfl
  | _ :: _, [] => rfl
  | a :: as, b :: bs => by
    simp [List.zipWith, syncSlot_idem, zipWith_sync_idem g as bs]

theorem map_token_src_zipWith_sync (g : List (String × EntradaGlosario)) :
    ∀ (s t : List Slot), s.length = t.length →
      (List.zipWith (syncSlot g) s t).map Slot.token_src = t.map Slot.token_src
  | [], [], _ => rfl
  | a :: as, b :: bs, h => by
    have h2 : as.length = bs.length := by simpa using h
    simp [List.zipWith, token_src_syncSlot, map_token_src_zipWith_sync g as bs h2]

/-- Alignment between the two matrices: identical index-to-source-token
correspondence (which forces equal lengths). -/
abbrev aligned (sys : Sistema) : Prop :=
  sys.mtx_s.map Slot.token_src = sys.mtx_t.map Slot.token_src

theorem aligned_length {sys : Sistema} (h : aligned sys) :
    sys.mtx_s.length = sys.mtx_t.length := by
  have h2 := congrArg List.length h
  simpa using h2

theorem aligned_get {sys : Sistema} (h : aligned sys) (i : Nat)
    (hi : i < sys.mtx_s.length) (hi2 : i < sys.mtx_t.length) :
    (sys.mtx_s.get ⟨i, hi⟩).token_src = (sys.mtx_t.get ⟨i, hi2⟩).token_src := by
  have h2 := congrArg (fun l => l.get? i) h
  simp only [List.get?_map] at h2
  rw [List.get?_eq_get hi, List.get?_eq_get hi2] at h2
  simpa using h2

theorem aligned_procesarPaso (sys : Sistema) (i : Nat) (token : String)
    (h : aligned sys) : aligned (procesarPaso sys i token) := by
  unfold procesarPaso registrar_token
  simp only [aligned] at h ⊢
  split <;> split <;> simp [h]

theorem aligned_procesar_foldl (l : List (Nat × String)) :
    ∀ (st : Sistema), aligned st →
      aligned (l.foldl (fun st p => procesarPaso st p.1 p.2) st) := by
  induction l with
  | nil => intro st h; exact h
  | cons p rest ih =>
    intro st h
    exact ih _ (aligned_procesarPaso st p.1 p.2 h)

theorem aligned_procesar (sys : Sistema) (texto : String) :
    aligned (procesar_texto_input sys texto) := by
  unfold procesar_texto_input
  exact aligned_procesar_foldl _ _ rfl

theorem token_src_aplicarBloqueo (s e : Nat) (trad : String) (i : Nat)
    (slot : Slot) : (aplicarBloqueo s e trad i slot).token_src = slot.token_src := by
  unfold aplicarBloqueo
  split
  · split <;> rfl
  · rfl

theorem aligned_crear_locucion (sys : Sistema) (s e : Nat) (T : String)
    (h : aligned sys) : aligned (crear_locucion sys s e T).1 := by
  unfold crear_locucion
  split_ifs with h1 h2
  · exact h
  · exact h
  · unfold aligned at h ⊢
    simp only []
    rw [map_mapIdxFrom Slot.token_src _ 0 sys.mtx_t
      (token_src_aplicarBloqueo s e T)]
    exact h

theorem aligned_sync (sys : Sistema) (h : aligned sys) :
    aligned (ejecutar_core_p3 sys) := by
  have hlen := aligned_length h
  unfold ejecutar_core_p3 aligned
  simp only []
  rw [List.drop_eq_nil_of_le (le_of_eq hlen.symm), List.append_nil,
    map_token_src_zipWith_sync sys.glosario sys.mtx_s sys.mtx_t hlen]
  exact h

theorem aligned_inyectar (sys : Sistema) (i : Nat) (txt pos : String)
    (h : aligned sys) : aligned (inyectar_token sys i txt pos).1 := by
  unfold inyectar_token
  by_cases h1 : i < sys.mtx_t.length
  · simp only [h1, if_true]
    unfold aligned at h ⊢
    simp only []
    rw [map_updateAt Slot.token_src i _ sys.mtx_t]
    · exact h
    · intro a; by_cases h2 : pos = "PRE" <;> simp [h2]
  · simpa [h1] using h

theorem aligned_alternar (sys : Sistema) (i : Nat)
    (h : aligned sys) : aligned (alternar_nulidad sys i).1 := by
  unfold alternar_nulidad
  cases hg : sys.mtx_t.get? i with
  | none => simpa [hg] using h
  | some slot =>
    by_cases h1 : slot.status = Status.NULO <;>
      · simp only [hg, h1, if_true, if_false]
        unfold aligned at h ⊢
        simp only []
        rw [map_updateAt Slot.token_src i _ sys.mtx_t]
        · exact h
        · intro a; simp

theorem aligned_limpiar (sys : Sistema) (i : Nat)
    (h : aligned sys) : aligned (limpiar_inyecciones sys i) := by
  unfold limpiar_inyecciones
  by_cases h1 : i < sys.mtx_t.length
  · simp only [h1, if_true]
    unfold aligned at h ⊢
    simp only []
    rw [map_updateAt Slot.token_src i _ sys.mtx_t]
    · exact h
    · intro a; simp
  · simpa [h1] using h

theorem glossaryLookup_procesarPaso (sys : Sistema) (i : Nat) (token k : String)
    (e : EntradaGlosario) (h : glossaryLookup sys.glosario k = some e) :
    glossaryLookup (procesarPaso sys i token).glosario k = some e := by
  unfold procesarPaso
  simp only []
  exact glossaryLookup_registrar sys k _ _ _ e h

theorem glossaryLookup_procesar_foldl (l : List (Nat × String)) :
    ∀ (st : Sistema) (k : String) (e : EntradaGlosario),
      glossaryLookup st.glosario k = some e →
      glossaryLookup ((l.foldl (fun st p => procesarPaso st p.1 p.2) st)).glosario k =
        some e := by
  induction l with
  | nil => intro st k e h; exact h
  | cons p rest ih =>
    intro st k e h
    exact ih _ k e (glossaryLookup_procesarPaso st p.1 p.2 k e h)

/-! ### Claims -/

/-- C1: `synchronize()` is idempotent — on any engine state whose matrices
are index-aligned in length, running `ejecutar_core_p3` twice in a row with
no intervening glossary change yields a target matrix identical to the one
produced by a single run. -/
theorem claim_C1 (sys : Sistema) (h : sys.mtx_s.length = sys.mtx_t.length) :
    (ejecutar_core_p3 (ejecutar_core_p3 sys)).mtx_t = (ejecutar_core_p3 sys).mtx_t := by
  have hdrop : sys.mtx_t.drop sys.mtx_s.length = [] :=
    List.drop_eq_nil_of_le (le_of_eq h.symm)
  unfold ejecutar_core_p3
  simp only [hdrop, List.append_nil]
  have hlen1 : (List.zipWith (syncSlot sys.glosario) sys.mtx_s sys.mtx_t).length ≤
      sys.mtx_s.length := by
    rw [List.length_zipWith]; omega
  rw [List.drop_eq_nil_of_le hlen1, List.append_nil,
    zipWith_sync_idem sys.glosario sys.mtx_s sys.mtx_t]

/-- Concrete state for the C1 witness. -/
def sistemaC1 : Sistema :=
  { mtx_s := [{ id := "S_0", pos_index := 0, token_src := "a" }],
    mtx_t := [{ id := "T_0", pos_index := 0, token_src := "a" }],
    glosario := [("a", { token_src := "a", token_tgt := "x",
                         categoria := Categoria.NUCLEO, status := Status.ASIGNADO,
                         margen := Margen.DIRECTO })] }

/-- Witness for C1 at a concrete one-token state. -/
theorem claim_C1_witness :
    sistemaC1.mtx_s.length = sistemaC1.mtx_t.length ∧
    (ejecutar_core_p3 (ejecutar_core_p3 sistemaC1)).mtx_t =
      (ejecutar_core_p3 sistemaC1).mtx_t :=
  ⟨by decide, claim_C1 sistemaC1 (by decide)⟩

/-- C8: failure atomicity — when fusion reports invalid indices, or a
repair operation is given an out-of-range index, the whole state (source
matrix, target matrix and glossary) is exactly as before the call. -/
theorem claim_C8 (sys : Sistema) (s e i : Nat) (T txt pos : String)
    (hc : ¬ (s < sys.mtx_s.length) ∨ ¬ (e < sys.mtx_s.length) ∨ s > e)
    (hi : sys.mtx_t.length ≤ i) :
    (crear_locucion sys s e T).1 = sys
    ∧ (crear_locucion sys s e T).2.1 = false
    ∧ (inyectar_token sys i txt pos).1 = sys
    ∧ (inyectar_token sys i txt pos).2.1 = false
    ∧ (alternar_nulidad sys i).1 = sys
    ∧ (alternar_nulidad sys i).2.1 = false
    ∧ limpiar_inyecciones sys i = sys := by
  have hget : sys.mtx_t.get? i = none := by
    rw [List.get?_eq_none]; exact hi
  have hni : ¬ i < sys.mtx_t.length := by omega
  refine ⟨?_, ?_, ?_, ?_, ?_, ?_, ?_⟩
  · unfold crear_locucion
    split_ifs with h1 h2
    · rfl
    · rfl
    · exfalso; rcases hc with h | h | h <;> omega
  · unfold crear_locucion
    split_ifs with h1 h2
    · rfl
    · rfl
    · exfalso; rcases hc with h | h | h <;> omega
  · simp [inyectar_token, hni]
  · simp [inyectar_token, hni]
  · unfold alternar_nulidad
    rw [hget]
  · unfold alternar_nulidad
    rw [hget]
  · simp [limpiar_inyecciones, hni]

/-- Concrete state for the C8 witness. -/
def sistemaC8 : Sistema :=
  { mtx_s := [{ id := "S_0", pos_index := 0, token_src := "a" }],
    mtx_t := [{ id := "T_0", pos_index := 0, token_src := "a" }] }

/-- Witness for C8: fusing with an out-of-range end index and repairing at
an out-of-range index both leave the concrete state untouched. -/
theorem claim_C8_witness :
    (crear_locucion sistemaC8 0 5 "T").1 = sistemaC8
    ∧ (inyectar_token sistemaC8 7 "x" "PRE").1 = sistemaC8
    ∧ (alternar_nulidad sistemaC8 7).1 = sistemaC8
    ∧ limpiar_inyecciones sistemaC8 7 = sistemaC8 := by
  have h := claim_C8 sistemaC8 0 5 7 "T" "x" "PRE"
    (by right; left; decide) (by decide)
  exact ⟨h.1, h.2.2.1, h.2.2.2.2.1, h.2.2.2.2.2.2⟩

/-- C9: glossary registration monotonicity — `registrar_token` is a no-op
on an existing key and otherwise inserts a pending empty-translation entry,
and `procesar_texto_input` never removes or overwrites an existing
glossary entry. -/
theorem claim_C9 (sys : Sistema) (k k2 : String) (c : Categoria) (m : Margen)
    (e : EntradaGlosario) (texto : String) :
    ((glossaryLookup sys.glosario k2).isSome → registrar_token sys k2 c m = sys)
    ∧ (glossaryLookup sys.glosario k2 = none →
        glossaryLookup (registrar_token sys k2 c m).glosario k2 =
          some { token_src := k2, token_tgt := "", categoria := c,
                 status := Status.PENDIENTE, margen := m })
    ∧ (glossaryLookup sys.glosario k = some e →
        glossaryLookup (procesar_texto_input sys texto).glosario k = some e) := by
  refine ⟨?_, ?_, ?_⟩
  · intro h
    unfold registrar_token
    simp [h]
  · intro h
    unfold registrar_token
    simp only [h, Option.isSome_none, Bool.false_eq_true, if_false]
    rw [glossaryLookup_append, h]
    simp [glossaryLookup]
  · intro h
    unfold procesar_texto_input
    exact glossaryLookup_procesar_foldl _ _ k e h

/-- Concrete state for the C9 witness. -/
def sistemaC9 : Sistema :=
  { glosario := [("a", { token_src := "a", token_tgt := "x",
                         categoria := Categoria.NUCLEO, status := Status.ASIGNADO,
                         margen := Margen.DIRECTO })] }

/-- Witness for C9: re-registering an existing key is a no-op, a fresh key
gets a pending entry, and tokenizing new text preserves the old entry. -/
theorem claim_C9_witness :
    (registrar_token sistemaC9 "a" Categoria.PARTICULA Margen.IDIOM = sistemaC9)
    ∧ (glossaryLookup (registrar_token sistemaC9 "b" Categoria.NUCLEO
        Margen.DIRECTO).glosario "b" =
        some { token_src := "b", token_tgt := "", categoria := Categoria.NUCLEO,
               status := Status.PENDIENTE, margen := Margen.DIRECTO })
    ∧ (glossaryLookup (procesar_texto_input sistemaC9 "b c").glosario "a" =
        some { token_src := "a", token_tgt := "x", categoria := Categoria.NUCLEO,
               status := Status.ASIGNADO, margen := Margen.DIRECTO }) :=
  ⟨(claim_C9 sistemaC9 "a" "a" Categoria.PARTICULA Margen.IDIOM
      { token_src := "a", token_tgt := "x", categoria := Categoria.NUCLEO,
        status := Status.ASIGNADO, margen := Margen.DIRECTO } "b c").1 (by decide),
   (claim_C9 sistemaC9 "a" "b" Categoria.NUCLEO Margen.DIRECTO
      { token_src := "a", token_tgt := "x", categoria := Categoria.NUCLEO,
        status := Status.ASIGNADO, margen := Margen.DIRECTO } "b c").2.1 (by decide),
   (claim_C9 sistemaC9 "a" "b" Categoria.NUCLEO Margen.DIRECTO
      { token_src := "a", token_tgt := "x", categoria := Categoria.NUCLEO,
        status := Status.ASIGNADO, margen := Margen.DIRECTO } "b c").2.2 (by decide)⟩

/-- C10: injections on a nullified slot or an absorbed blocked slot never
appear in the rendered fragment — a nullified slot renders exactly as its
braced source text and an absorbed slot renders as the empty string, in
any display mode. -/
theorem claim_C10 (slot : Slot) (mode : String) :
    (slot.status = Status.NULO →
      Slot.render slot mode = "\x7b" ++ slot.token_src ++ "\x7d")
    ∧ (slot.status = Status.BLOQUEADO → slot.token_tgt = "" →
      Slot.render slot mode = "") := by
  constructor
  · intro h
    unfold Slot.render
    simp [h]
  · intro h h2
    unfold Slot.render
    simp [h, h2]

/-- Concrete slot for the C10 witness: nullified, carrying both kinds of
injections. -/
def slotC10 : Slot :=
  { id := "T_0", pos_index := 0, token_src := "casa", token_tgt := "house",
    status := Status.NULO, inyecciones_previas := ["the"],
    inyecciones_posteriores := ["of"] }

/-- Witness for C10: the nullified slot renders as its braced source text,
with both injections omitted, in final mode. -/
theorem claim_C10_witness :
    slotC10.status = Status.NULO ∧
    Slot.render slotC10 "FINAL" = "\x7b" ++ slotC10.token_src ++ "\x7d" :=
  ⟨by decide, (claim_C10 slotC10 "FINAL").1 (by decide)⟩

theorem get?_sync (sys : Sistema) (i : Nat) (slot_s slot_t : Slot)
    (hs : sys.mtx_s.get? i = some slot_s)
    (ht : sys.mtx_t.get? i = some slot_t) :
    (ejecutar_core_p3 sys).mtx_t.get? i =
      some (syncSlot sys.glosario slot_s slot_t) := by
  have hi : i < sys.mtx_s.length := List.get?_eq_some.mp hs |>.1
  have hi2 : i < sys.mtx_t.length := List.get?_eq_some.mp ht |>.1
  unfold ejecutar_core_p3
  simp only []
  rw [List.get?_append (by rw [List.length_zipWith]; omega),
    get?_zipWith, hs, ht]

/-- Concrete state for C2: a single nullified target slot whose key has a
resolved non-empty glossary entry. -/
def sistemaC2 : Sistema :=
  { mtx_s := [{ id := "S_0", pos_index := 0, token_src := "a" }],
    mtx_t := [{ id := "T_0", pos_index := 0, token_src := "a",
                status := Status.NULO }],
    glosario := [("a", { token_src := "a", token_tgt := "x",
                         categoria := Categoria.NUCLEO, status := Status.ASIGNADO,
                         margen := Margen.DIRECTO })] }

/-- C2 counterexample: a nullified slot is *not* left untouched when the
glossary holds a resolved non-empty entry for its key —
`ejecutar_core_p3` reassigns it to ASIGNADO with the entry's translation. -/
theorem claim_C2_cex :
    ((sistemaC2.mtx_t.get? 0).map Slot.status = some Status.NULO)
    ∧ (((ejecutar_core_p3 sistemaC2).mtx_t.get? 0).map Slot.status =
        some Status.ASIGNADO)
    ∧ (((ejecutar_core_p3 sistemaC2).mtx_t.get? 0).map Slot.token_tgt = some "x")
    ∧ Status.ASIGNADO ≠ Status.NULO := by decide

/-- C2 amended: `ejecutar_core_p3` leaves a nullified slot's status, target
text and category untouched when the glossary has no entry for the slot's
key or the entry's translation is empty; when the glossary holds a
resolved non-empty entry it reassigns the slot with that entry's
translation and category, status ASIGNADO. -/
theorem claim_C2 (sys : Sistema) (i : Nat) (slot_s slot_t : Slot)
    (hs : sys.mtx_s.get? i = some slot_s)
    (ht : sys.mtx_t.get? i = some slot_t)
    (hn : slot_t.status = Status.NULO) :
    (∀ e2 : EntradaGlosario, lookupEntrada sys.glosario slot_s = some e2 →
      e2.token_tgt ≠ "" →
      (ejecutar_core_p3 sys).mtx_t.get? i =
        some { slot_t with token_tgt := e2.token_tgt, status := Status.ASIGNADO,
                           categoria := e2.categoria })
    ∧ (lookupEntrada sys.glosario slot_s = none →
        (ejecutar_core_p3 sys).mtx_t.get? i = some slot_t)
    ∧ (∀ e2 : EntradaGlosario, lookupEntrada sys.glosario slot_s = some e2 →
        e2.token_tgt = "" →
        (ejecutar_core_p3 sys).mtx_t.get? i = some slot_t) := by
  have hz := get?_sync sys i slot_s slot_t hs ht
  have hnb : ¬ (slot_t.status = Status.BLOQUEADO ∧
      slot_t.categoria = Categoria.LOCUCION) := by
    rw [hn]; rintro ⟨h2, -⟩; exact Status.noConfusion h2
  have hnb2 : ¬ (slot_t.status = Status.BLOQUEADO ∧ slot_t.token_tgt = "") := by
    rw [hn]; rintro ⟨h2, -⟩; exact Status.noConfusion h2
  refine ⟨?_, ?_, ?_⟩
  · intro e2 hE hne
    rw [hz]
    unfold syncSlot
    rw [if_neg hnb, if_neg hnb2, hE]
    simp [hne]
  · intro hE
    rw [hz]
    unfold syncSlot
    rw [if_neg hnb, if_neg hnb2, hE]
    simp [hn]
  · intro e2 hE he
    rw [hz]
    unfold syncSlot
    rw [if_neg hnb, if_neg hnb2, hE]
    simp [hn, he]

/-- Witness for C2 (amended): at the concrete nullified state the slot is
reassigned with the resolved entry's translation. -/
theorem claim_C2_witness :
    (ejecutar_core_p3 sistemaC2).mtx_t.get? 0 =
      some { id := "T_0", pos_index := 0, token_src := "a", token_tgt := "x",
             categoria := Categoria.NUCLEO, status := Status.ASIGNADO } :=
  (claim_C2 sistemaC2 0 { id := "S_0", pos_index := 0, token_src := "a" }
      { id := "T_0", pos_index := 0, token_src := "a", status := Status.NULO }
      (by decide) (by decide) (by decide)).1
    { token_src := "a", token_tgt := "x", categoria := Categoria.NUCLEO,
      status := Status.ASIGNADO, margen := Margen.DIRECTO }
    (by decide) (by decide)

/-- C3: alignment invariant — tokenization always produces aligned
matrices, every mutating operation preserves alignment, and alignment
means equal lengths together with index-to-source-token correspondence.
(The renderer takes no part: `renderizar_texto_final` is a pure function
of the state and returns only a string.) -/
theorem claim_C3 (sys : Sistema) (texto : String) (s e idx : Nat)
    (T txt pos : String) :
    aligned (procesar_texto_input sys texto)
    ∧ (∀ sys2 : Sistema, aligned sys2 → aligned (crear_locucion sys2 s e T).1)
    ∧ (∀ sys2 : Sistema, aligned sys2 → aligned (inyectar_token sys2 idx txt pos).1)
    ∧ (∀ sys2 : Sistema, aligned sys2 → aligned (alternar_nulidad sys2 idx).1)
    ∧ (∀ sys2 : Sistema, aligned sys2 → aligned (limpiar_inyecciones sys2 idx))
    ∧ (∀ sys2 : Sistema, aligned sys2 → aligned (ejecutar_core_p3 sys2))
    ∧ (∀ sys2 : Sistema, aligned sys2 → sys2.mtx_s.length = sys2.mtx_t.length
        ∧ ∀ (i : Nat) (hi : i < sys2.mtx_s.length) (hi2 : i < sys2.mtx_t.length),
            (sys2.mtx_s.get ⟨i, hi⟩).token_src = (sys2.mtx_t.get ⟨i, hi2⟩).token_src) :=
  ⟨aligned_procesar sys texto,
   fun sys2 h => aligned_crear_locucion sys2 s e T h,
   fun sys2 h => aligned_inyectar sys2 idx txt pos h,
   fun sys2 h => aligned_alternar sys2 idx h,
   fun sys2 h => aligned_limpiar sys2 idx h,
   fun sys2 h => aligned_sync sys2 h,
   fun sys2 h => ⟨aligned_length h, fun i hi hi2 => aligned_get h i hi hi2⟩⟩

/-- Concrete tokenized state for the C3 witness. -/
def sistemaC3 : Sistema := procesar_texto_input sistemaInicial "Kitab al-ilm."

/-- Witness for C3: the concrete tokenized state is aligned and stays
aligned through fusion and synchronization. -/
theorem claim_C3_witness :
    aligned (ejecutar_core_p3 sistemaC3)
    ∧ aligned (crear_locucion sistemaC3 1 3 "del conocimiento").1
    ∧ sistemaC3.mtx_s.length = sistemaC3.mtx_t.length :=
  ⟨(claim_C3 sistemaInicial "Kitab al-ilm." 1 3 0 "del conocimiento" "w"
      "PRE").2.2.2.2.2.1 sistemaC3 (by decide),
   (claim_C3 sistemaInicial "Kitab al-ilm." 1 3 0 "del conocimiento" "w"
      "PRE").2.1 sistemaC3 (by decide),
   ((claim_C3 sistemaInicial "Kitab al-ilm." 1 3 0 "del conocimiento" "w"
      "PRE").2.2.2.2.2.2 sistemaC3 (by decide)).1⟩

/-- C4: fusion postcondition — with valid aligned indices, `crear_locucion`
succeeds, blocks every covered target slot, writes the translation and
the locution category into the head slot, empties the absorbed slots, and
stores an assigned locution entry under the space-joined lower-cased
composite key. -/
theorem claim_C4 (sys : Sistema) (s e : Nat) (T : String)
    (hse : s ≤ e) (he : e < sys.mtx_s.length)
    (hlen : sys.mtx_s.length = sys.mtx_t.length) :
    (crear_locucion sys s e T).2.1 = true
    ∧ (∀ i, s ≤ i → i ≤ e →
        ((crear_locucion sys s e T).1.mtx_t.get? i).map Slot.status =
          some Status.BLOQUEADO)
    ∧ ((crear_locucion sys s e T).1.mtx_t.get? s).map Slot.token_tgt = some T
    ∧ ((crear_locucion sys s e T).1.mtx_t.get? s).map Slot.categoria =
        some Categoria.LOCUCION
    ∧ (∀ i, s < i → i ≤ e →
        ((crear_locucion sys s e T).1.mtx_t.get? i).map Slot.token_tgt = some "")
    ∧ glossaryLookup (crear_locucion sys s e T).1.glosario
        (toLowerStr (String.intercalate " "
          (((sys.mtx_s.drop s).take (e + 1 - s)).map Slot.token_src))) =
        some { token_src := toLowerStr (String.intercalate " "
                 (((sys.mtx_s.drop s).take (e + 1 - s)).map Slot.token_src)),
               token_tgt := T, categoria := Categoria.LOCUCION,
               status := Status.ASIGNADO, margen := Margen.IDIOM } := by
  have hs2 : s < sys.mtx_s.length := lt_of_le_of_lt hse he
  have hnot1 : ¬ (¬ (s < sys.mtx_s.length) ∨ ¬ (e < sys.mtx_s.length)) := by
    push_neg; exact ⟨hs2, he⟩
  have hnot2 : ¬ s > e := by omega
  refine ⟨?_, ?_, ?_, ?_, ?_, ?_⟩
  · unfold crear_locucion
    rw [if_neg hnot1, if_neg hnot2]
  · intro i hsi hie
    have hit : i < sys.mtx_t.length := by omega
    obtain ⟨a, ha⟩ : ∃ a, sys.mtx_t.get? i = some a := ⟨_, List.get?_eq_get hit⟩
    unfold crear_locucion
    rw [if_neg hnot1, if_neg hnot2]
    simp only [get?_mapIdxFrom, ha, Option.map_some, Option.map_some', Nat.zero_add]
    unfold aplicarBloqueo
    rw [if_pos ⟨hsi, hie⟩]
    by_cases hi2 : i = s <;> simp [hi2]
  · have hst : s < sys.mtx_t.length := by omega
    obtain ⟨a, ha⟩ : ∃ a, sys.mtx_t.get? s = some a := ⟨_, List.get?_eq_get hst⟩
    unfold crear_locucion
    rw [if_neg hnot1, if_neg hnot2]
    simp only [get?_mapIdxFrom, ha, Option.map_some, Option.map_some', Nat.zero_add]
    unfold aplicarBloqueo
    rw [if_pos ⟨le_refl s, hse⟩, if_pos rfl]
  · have hst : s < sys.mtx_t.length := by omega
    obtain ⟨a, ha⟩ : ∃ a, sys.mtx_t.get? s = some a := ⟨_, List.get?_eq_get hst⟩
    unfold crear_locucion
    rw [if_neg hnot1, if_neg hnot2]
    simp only [get?_mapIdxFrom, ha, Option.map_some, Option.map_some', Nat.zero_add]
    unfold aplicarBloqueo
    rw [if_pos ⟨le_refl s, hse⟩, if_pos rfl]
  · intro i hsi hie
    have hit : i < sys.mtx_t.length := by omega
    obtain ⟨a, ha⟩ : ∃ a, sys.mtx_t.get? i = some a := ⟨_, List.get?_eq_get hit⟩
    unfold crear_locucion
    rw [if_neg hnot1, if_neg hnot2]
    simp only [get?_mapIdxFrom, ha, Option.map_some, Option.map_some', Nat.zero_add]
    unfold aplicarBloqueo
    rw [if_pos ⟨le_of_lt hsi, hie⟩, if_neg (by omega)]
  · unfold crear_locucion
    rw [if_neg hnot1, if_neg hnot2]
    exact glossaryLookup_glossarySet_self sys.glosario _ _

/-- Concrete two-token state for the C4 witness. -/
def sistemaC4 : Sistema :=
  { mtx_s := [{ id := "S_0", pos_index := 0, token_src := "al" },
              { id := "S_1", pos_index := 1, token_src := "ilm" }],
    mtx_t := [{ id := "T_0", pos_index := 0, token_src := "al" },
              { id := "T_1", pos_index := 1, token_src := "ilm" }] }

/-- Witness for C4 at the concrete two-token state: fusing the whole range
succeeds, blocks the absorbed slot and stores the composite entry. -/
theorem claim_C4_witness :
    (crear_locucion sistemaC4 0 1 "del conocimiento").2.1 = true
    ∧ ((crear_locucion sistemaC4 0 1 "del conocimiento").1.mtx_t.get? 1).map
        Slot.status = some Status.BLOQUEADO
    ∧ glossaryLookup (crear_locucion sistemaC4 0 1 "del conocimiento").1.glosario
        (toLowerStr (String.intercalate " "
          (((sistemaC4.mtx_s.drop 0).take 2).map Slot.token_src))) =
        some { token_src := toLowerStr (String.intercalate " "
                 (((sistemaC4.mtx_s.drop 0).take 2).map Slot.token_src)),
               token_tgt := "del conocimiento", categoria := Categoria.LOCUCION,
               status := Status.ASIGNADO, margen := Margen.IDIOM } := by
  have h := claim_C4 sistemaC4 0 1 "del conocimiento"
    (by decide) (by decide) (by decide)
  exact ⟨h.1, h.2.1 1 (by decide) (by decide), h.2.2.2.2.2⟩

theorem alternar_get_nulo (sys : Sistema) (i : Nat) (slot : Slot)
    (hget : sys.mtx_t.get? i = some slot) (h : slot.status = Status.NULO) :
    (alternar_nulidad sys i).1.mtx_t.get? i =
      some { slot with status := if slot.token_tgt ≠ "" then Status.ASIGNADO
               else Status.PENDIENTE } := by
  unfold alternar_nulidad
  rw [hget]
  simp only [h, if_true]
  rw [get?_updateAt_self, hget]
  simp

theorem alternar_get_other (sys : Sistema) (i : Nat) (slot : Slot)
    (hget : sys.mtx_t.get? i = some slot) (h : slot.status ≠ Status.NULO) :
    (alternar_nulidad sys i).1.mtx_t.get? i =
      some { slot with status := Status.NULO } := by
  unfold alternar_nulidad
  rw [hget]
  simp only [h, if_false]
  rw [get?_updateAt_self, hget]
  simp

/-- Concrete state for the C6 counterexample: a pending slot that carries
non-empty target text. -/
def sistemaC6 : Sistema :=
  { mtx_t := [{ id := "T_0", pos_index := 0, token_src := "a", token_tgt := "x",
                status := Status.PENDIENTE }] }

/-- C6 counterexample: on a pending slot with non-empty target text (a
combination the engine itself never produces), toggling elision twice
lands on ASIGNADO, not the original PENDIENTE. -/
theorem claim_C6_cex :
    ((sistemaC6.mtx_t.get? 0).map Slot.status = some Status.PENDIENTE)
    ∧ (((alternar_nulidad (alternar_nulidad sistemaC6 0).1 0).1.mtx_t.get? 0).map
        Slot.status = some Status.ASIGNADO)
    ∧ Status.ASIGNADO ≠ Status.PENDIENTE := by decide

/-- C6 amended: double elision toggle restores the slot exactly for every
non-blocked slot whose text is consistent with its status (pending slots
hold empty text, assigned slots hold non-empty text — the only
combinations the engine produces). -/
theorem claim_C6 (sys : Sistema) (i : Nat) (slot : Slot)
    (hget : sys.mtx_t.get? i = some slot)
    (hnb : slot.status ≠ Status.BLOQUEADO)
    (hp : slot.status = Status.PENDIENTE → slot.token_tgt = "")
    (ha : slot.status = Status.ASIGNADO → slot.token_tgt ≠ "") :
    (alternar_nulidad (alternar_nulidad sys i).1 i).1.mtx_t.get? i = some slot := by
  obtain ⟨sid, spi, ssrc, stgt, scat, sst, sor, spre, spost⟩ := slot
  simp only at hnb hp ha
  cases sst with
  | BLOQUEADO => exact absurd rfl hnb
  | NULO =>
    have h1 := alternar_get_nulo sys i _ hget rfl
    have h2 := alternar_get_other _ i _ h1 (by
      by_cases ht : stgt ≠ "" <;> simp [ht])
    rw [h2]
  | PENDIENTE =>
    have htE : stgt = "" := hp rfl
    have h1 := alternar_get_other sys i _ hget (by simp)
    have h2 := alternar_get_nulo _ i _ h1 rfl
    rw [h2]
    simp [htE]
  | ASIGNADO =>
    have htN : stgt ≠ "" := ha rfl
    have h1 := alternar_get_other sys i _ hget (by simp)
    have h2 := alternar_get_nulo _ i _ h1 rfl
    rw [h2]
    simp [htN]

/-- Concrete state for the C6 witness: a nullified slot holding text. -/
def sistemaC6b : Sistema :=
  { mtx_t := [{ id := "T_0", pos_index := 0, token_src := "a", token_tgt := "x",
                status := Status.NULO }] }

/-- Witness for C6 (amended): double toggle restores the concrete
nullified slot exactly. -/
theorem claim_C6_witness :
    (alternar_nulidad (alternar_nulidad sistemaC6b 0).1 0).1.mtx_t.get? 0 =
      some { id := "T_0", pos_index := 0, token_src := "a", token_tgt := "x",
             status := Status.NULO } :=
  claim_C6 sistemaC6b 0
    { id := "T_0", pos_index := 0, token_src := "a", token_tgt := "x",
      status := Status.NULO }
    (by decide) (by decide) (by decide) (by decide)

/-- Concrete two-slot state for C7. -/
def sistemaC7 : Sistema :=
  { mtx_t := [{ id := "T_0", pos_index := 0, token_src := "a" },
              { id := "T_1", pos_index := 1, token_src := "b" }] }

/-- C7 counterexample: `limpiar_inyecciones` on an out-of-range index does
not fail at all — the call returns normally (the source returns `None` on
both paths and raises nothing) and leaves the state untouched, so the
clear-injections operation never reports an out-of-range error. -/
theorem claim_C7_cex :
    sistemaC7.mtx_t.length = 2 ∧ limpiar_inyecciones sistemaC7 5 = sistemaC7 := by
  decide

/-- C7 amended: `inyectar_token` and `alternar_nulidad` report failure
exactly on an out-of-range index and never otherwise; `limpiar_inyecciones`
never reports anything and is a silent no-op out of range; and on success
none of the three operations changes anything outside the targeted slot
(every other target slot, the source matrix and the glossary are
unchanged). -/
theorem claim_C7 (sys : Sistema) (i j : Nat) (txt pos : String) (hj : j ≠ i) :
    ((inyectar_token sys i txt pos).2.1 = true ↔ i < sys.mtx_t.length)
    ∧ ((alternar_nulidad sys i).2.1 = true ↔ i < sys.mtx_t.length)
    ∧ (sys.mtx_t.length ≤ i → limpiar_inyecciones sys i = sys)
    ∧ ((inyectar_token sys i txt pos).1.mtx_t.get? j = sys.mtx_t.get? j)
    ∧ ((inyectar_token sys i txt pos).1.mtx_s = sys.mtx_s)
    ∧ ((inyectar_token sys i txt pos).1.glosario = sys.glosario)
    ∧ ((alternar_nulidad sys i).1.mtx_t.get? j = sys.mtx_t.get? j)
    ∧ ((alternar_nulidad sys i).1.mtx_s = sys.mtx_s)
    ∧ ((alternar_nulidad sys i).1.glosario = sys.glosario)
    ∧ ((limpiar_inyecciones sys i).mtx_t.get? j = sys.mtx_t.get? j)
    ∧ ((limpiar_inyecciones sys i).mtx_s = sys.mtx_s)
    ∧ ((limpiar_inyecciones sys i).glosario = sys.glosario) := by
  refine ⟨?_, ?_, ?_, ?_, ?_, ?_, ?_, ?_, ?_, ?_, ?_, ?_⟩
  · unfold inyectar_token
    by_cases h : i < sys.mtx_t.length <;> simp [h]
  · cases hg : sys.mtx_t.get? i with
    | none =>
      have hlen : sys.mtx_t.length ≤ i := List.get?_eq_none.mp hg
      unfold alternar_nulidad
      rw [hg]
      simp [hlen]
    | some slot =>
      have hi : i < sys.mtx_t.length := (List.get?_eq_some.mp hg).1
      unfold alternar_nulidad
      rw [hg]
      by_cases h2 : slot.status = Status.NULO <;> simp [h2, hi]
  · intro h
    unfold limpiar_inyecciones
    rw [if_neg (by omega)]
  · unfold inyectar_token
    by_cases h : i < sys.mtx_t.length
    · simp only [h, if_true]
      exact get?_updateAt_ne i j _ sys.mtx_t hj
    · simp [h]
  · unfold inyectar_token
    by_cases h : i < sys.mtx_t.length <;> simp [h]
  · unfold inyectar_token
    by_cases h : i < sys.mtx_t.length <;> simp [h]
  · unfold alternar_nulidad
    cases hg : sys.mtx_t.get? i with
    | none => rfl
    | some slot =>
      by_cases h2 : slot.status = Status.NULO
      · simp only [h2, if_true]
        exact get?_updateAt_ne i j _ sys.mtx_t hj
      · simp only [h2, if_false]
        exact get?_updateAt_ne i j _ sys.mtx_t hj
  · unfold alternar_nulidad
    cases hg : sys.mtx_t.get? i with
    | none => rfl
    | some slot => by_cases h2 : slot.status = Status.NULO <;> simp [h2]
  · unfold alternar_nulidad
    cases hg : sys.mtx_t.get? i with
    | none => rfl
    | some slot => by_cases h2 : slot.status = Status.NULO <;> simp [h2]
  · unfold limpiar_inyecciones
    by_cases h : i < sys.mtx_t.length
    · simp only [h, if_true]
      exact get?_updateAt_ne i j _ sys.mtx_t hj
    · simp [h]
  · unfold limpiar_inyecciones
    by_cases h : i < sys.mtx_t.length <;> simp [h]
  · unfold limpiar_inyecciones
    by_cases h : i < sys.mtx_t.length <;> simp [h]

/-- Witness for C7 (amended) at the concrete two-slot state: injecting at
slot 0 succeeds and leaves slot 1, the source matrix and the glossary
unchanged, and an out-of-range clear is a no-op. -/
theorem claim_C7_witness :
    ((inyectar_token sistemaC7 0 "w" "PRE").2.1 = true ↔ 0 < sistemaC7.mtx_t.length)
    ∧ ((inyectar_token sistemaC7 0 "w" "PRE").1.mtx_t.get? 1 =
        sistemaC7.mtx_t.get? 1)
    ∧ ((inyectar_token sistemaC7 0 "w" "PRE").1.glosario = sistemaC7.glosario)
    ∧ limpiar_inyecciones sistemaC7 9 = sistemaC7 := by
  have h := claim_C7 sistemaC7 0 1 "w" "PRE" (by decide)
  have h9 := claim_C7 sistemaC7 9 1 "w" "PRE" (by decide)
  exact ⟨h.1, h.2.2.2.1, h.2.2.2.2.2.1, h9.2.2.1 (by decide)⟩

/-- The state obtained by tokenizing the scenario text `"Kitab al-ilm."`
from a fresh system. -/
def sistemaC5 : Sistema := procesar_texto_input sistemaInicial "Kitab al-ilm."

/-- The scenario state after resolving the three word keys, synchronizing
and switching the output mode to FINAL. -/
def sistemaC5final : Sistema :=
  { ejecutar_core_p3 (resolver_entrada (resolver_entrada (resolver_entrada
      sistemaC5 "kitab" "libro") "al" "el") "ilm" "conocimiento")
    with modo_salida := "FINAL" }

/-- C5 counterexample: tokenizing `"Kitab al-ilm."` yields 5 tokens, not
the 4 the claim allows — the regex `(\w+|[^\w\s])` makes the hyphen its
own punctuation token, so the split is `Kitab`, `al`, `-`, `ilm`, `.`. -/
theorem claim_C5_cex :
    sistemaC5.mtx_s.length = 5 ∧ sistemaC5.mtx_s.length ≠ 4 := by decide

/-- C5 amended: tokenizing `"Kitab al-ilm."` yields the 5 tokens `Kitab`
(core), `al` (core — it is not in the particle set), `-` (punctuation),
`ilm` (core) and `.` (punctuation); after resolving `kitab → libro`,
`al → el`, `ilm → conocimiento`, synchronizing and rendering in FINAL mode
the output is `"libro el [-?] conocimiento [.?]"` — the unresolved hyphen
and period stay as bracketed placeholders separated by spaces, because
their glossary entries carry empty translations and the target slots keep
the default core category that the spacing rule checks. -/
theorem claim_C5 :
    sistemaC5.mtx_s.map Slot.token_src = ["Kitab", "al", "-", "ilm", "."]
    ∧ sistemaC5.mtx_s.map Slot.categoria =
        [Categoria.NUCLEO, Categoria.NUCLEO, Categoria.PUNTUACION,
         Categoria.NUCLEO, Categoria.PUNTUACION]
    ∧ renderizar_texto_final sistemaC5final = "libro el [-?] conocimiento [.?]" := by
  decide

end Traductor
